import Mathlib

/-!
Shallow embedding of the save/restore and clip-replay state machine of
SkiaCanvas (src/libs/hwui/SkiaCanvas.cpp), together with a model of the
rendering-backend (SkCanvas) contract it drives.

Scalar coordinates (C++ float) are carried opaquely as `Int`: the engine
never computes with them, it only packs them into shapes and forwards them.
Likewise the total transform (SkMatrix) is opaque: the engine only ever
snapshots it, reinstalls it, and freezes it inside logged clip entries.
-/

set_option autoImplicit false

namespace SkiaModel

/-- Scalar coordinate values (C++ float); carried, never computed with. -/
abbrev Scalar := Int

/-- SkRect: an axis-aligned rectangle, as packed by SkRect::MakeLTRB. -/
structure SkRect where
  fLeft : Scalar
  fTop : Scalar
  fRight : Scalar
  fBottom : Scalar
deriving DecidableEq, Repr

/-- SkRect::MakeLTRB. -/
def SkRect.MakeLTRB (l t r b : Scalar) : SkRect := ⟨l, t, r, b⟩

/-- SkRRect: a rounded rectangle, i.e. its bounding rect plus corner-radius
data (carried opaquely). -/
structure SkRRect where
  rect : SkRect
  radiiData : Nat
deriving DecidableEq, Repr

/-- SkRRect::MakeRect: a plain rectangle degenerates to a rounded rect with
zero corner radii. -/
def SkRRect.MakeRect (r : SkRect) : SkRRect := ⟨r, 0⟩

/-- SkPath: opaque path data; `rrectForm` is the answer SkPath::isRRect gives
(`some rr` exactly when the path describes the rounded rect `rr`). -/
structure SkPath where
  pathData : Nat
  rrectForm : Option SkRRect
deriving DecidableEq, Repr

/-- SkPath::isRRect. -/
def SkPath.isRRect (p : SkPath) : Option SkRRect := p.rrectForm

/-- SkMatrix: a total transform, carried as an opaque value — the engine only
snapshots it (getTotalMatrix) and reinstalls it (setMatrix). -/
structure SkMatrix where
  val : Nat
deriving DecidableEq, Repr

/-- The identity transform of a freshly constructed backend canvas. -/
def SkMatrix.I : SkMatrix := ⟨0⟩

/-- SkClipOp: the region combine operator of a clip call. -/
inductive SkClipOp
  | difference
  | intersect
deriving DecidableEq, Repr

/-- A clip shape as passed to the backend clip primitives. -/
inductive ClipShape
  | rect (r : SkRect)
  | rrect (rr : SkRRect)
  | path (p : SkPath)
deriving DecidableEq, Repr

/-- One element of the backend's clip region: the shape, the combine operator,
and the total transform that was in effect when the shape was applied (the
symbolic equivalent of the device-space clip element the backend stores). -/
structure ClipElem where
  shape : ClipShape
  op : SkClipOp
  matrix : SkMatrix
deriving DecidableEq, Repr

/-- SkPaint, reduced to the only field the modelled code writes: the alpha
channel. A default-constructed paint is fully opaque (alpha 255). -/
structure SkPaint where
  alpha : Nat
deriving DecidableEq, Repr

/-- A default-constructed SkPaint. -/
def SkPaint.mkDefault : SkPaint := ⟨255⟩

/-- SkPaint::setAlpha (takes a U8CPU, i.e. the unsigned conversion of the
caller's int; the modelled call site guarantees the value is below 255). -/
def SkPaint.setAlpha (p : SkPaint) (a : Nat) : SkPaint := { p with alpha := a }

/-- SkCanvas::SaveLayerRec: bounds, optional layer paint, and layer flags. -/
structure SaveLayerRec where
  bounds : SkRect
  paint : Option SkPaint
  saveLayerFlags : Nat
deriving DecidableEq, Repr

/-- SkBitmap, reduced to opaque pixel data plus its isNull query. -/
structure SkBitmap where
  pixelData : Nat
  isNull : Bool
deriving DecidableEq, Repr

/-- Modelled from the spec: the RenderingBackend (SkCanvas) is an external
collaborator, not code of this repository; §6 gives its contract as an
immediate-mode surface with its own save-count, total-transform and
clip-region state (save, restore, getSaveCount, getTotalMatrix, setMatrix,
clip-by-shape, and a clip visitor hook). `stack` holds the saved
(matrix, clip) frames, most recent first; `layers` records the saveLayer
calls issued (their pixel effect is outside the model). -/
structure SkCanvasState where
  matrix : SkMatrix
  clip : List ClipElem
  stack : List (SkMatrix × List ClipElem)
  layers : List SaveLayerRec
deriving DecidableEq, Repr

/-- Modelled from the spec: a freshly constructed backend canvas (new
SkCanvas(bitmap)) — identity transform, no clip, baseline save depth. -/
def SkCanvasState.fresh : SkCanvasState := ⟨SkMatrix.I, [], [], []⟩

/-- Modelled from the spec: getSaveCount()→count; a fresh canvas reports 1. -/
def SkCanvasState.getSaveCount (c : SkCanvasState) : Int := c.stack.length + 1

/-- Modelled from the spec: getTotalMatrix()→M. -/
def SkCanvasState.getTotalMatrix (c : SkCanvasState) : SkMatrix := c.matrix

/-- Modelled from the spec: setMatrix(M). -/
def SkCanvasState.setMatrix (c : SkCanvasState) (m : SkMatrix) : SkCanvasState :=
  { c with matrix := m }

/-- Modelled from the spec: save()→count pushes the full (matrix, clip) state
and reports the save count prior to the new frame (the value a balancing
restoreToCount takes). -/
def SkCanvasState.save (c : SkCanvasState) : SkCanvasState × Int :=
  ({ c with stack := (c.matrix, c.clip) :: c.stack }, c.getSaveCount)

/-- Modelled from the spec: restore() atomically rolls back both matrix and
clip to the most recent frame; at the baseline depth it is a no-op. -/
def SkCanvasState.restore (c : SkCanvasState) : SkCanvasState :=
  match c.stack with
  | [] => c
  | (m, cl) :: rest => { c with matrix := m, clip := cl, stack := rest }

/-- Modelled from the spec: clipRect(shape, op) narrows the clip region by the
rect under the current total transform. -/
def SkCanvasState.clipRect (c : SkCanvasState) (r : SkRect) (op : SkClipOp) : SkCanvasState :=
  { c with clip := c.clip ++ [⟨ClipShape.rect r, op, c.matrix⟩] }

/-- Modelled from the spec: clipRRect(shape, op). -/
def SkCanvasState.clipRRect (c : SkCanvasState) (rr : SkRRect) (op : SkClipOp) : SkCanvasState :=
  { c with clip := c.clip ++ [⟨ClipShape.rrect rr, op, c.matrix⟩] }

/-- Modelled from the spec: clipPath(shape, op). -/
def SkCanvasState.clipPath (c : SkCanvasState) (p : SkPath) (op : SkClipOp) : SkCanvasState :=
  { c with clip := c.clip ++ [⟨ClipShape.path p, op, c.matrix⟩] }

/-- Modelled from the spec: saveLayer(rec)→count pushes a full save frame
(layers are always restored atomically by the backend) and records the layer
request; reports the same count save() would. -/
def SkCanvasState.saveLayer (c : SkCanvasState) (rec : SaveLayerRec) : SkCanvasState × Int :=
  ({ c with stack := (c.matrix, c.clip) :: c.stack, layers := c.layers ++ [rec] },
   c.getSaveCount)

/-- Modelled from the spec: the clip visitor hook (replayClips) enumerates the
currently active clip elements of `src`, and the ClipCopier
(SkiaCanvas.cpp:76-92) reproduces each of them on `dst`, so the destination's
clip region is the source's region appended to whatever clip `dst` had. -/
def SkCanvasState.replayClipsInto (src dst : SkCanvasState) : SkCanvasState :=
  { dst with clip := dst.clip ++ src.clip }

namespace SaveFlags

/-- SaveFlags::Matrix (flag present ⇒ the matrix is restored normally). -/
def Matrix : Nat := 1

/-- SaveFlags::Clip (flag present ⇒ the clip is restored normally). -/
def Clip : Nat := 2

/-- SaveFlags::MatrixClip = Matrix | Clip. -/
def MatrixClip : Nat := 3

/-- SaveFlags::ClipToLayer. -/
def ClipToLayer : Nat := 16

end SaveFlags

/-- SkCanvas::kDontClipToLayer_Legacy_SaveLayerFlag (1 << 31). -/
def kDontClipToLayerFlag : Nat := 2 ^ 31

/-- SkiaCanvas::SaveRec (SkiaCanvas.h): the backend save count at creation,
the (masked) legacy save flags, and the clip-log start index of the frame. -/
structure SaveRec where
  saveCount : Int
  saveFlags : Nat
  clipIndex : Nat
deriving DecidableEq, Repr

/-- The shape payload of SkiaCanvas::Clip (SkiaCanvas.cpp:216-254): the C++
class tracks mType together with mRRect / lazily present mPath, which its own
comment calls "logically a union"; a plain rect is stored via
SkRRect::MakeRect. -/
inductive ClipVariant
  | rect (rr : SkRRect)
  | rrect (rr : SkRRect)
  | path (p : SkPath)
deriving DecidableEq, Repr

/-- SkiaCanvas::Clip: shape variant, combine op, and the transform frozen at
the moment the clip was recorded. -/
structure Clip where
  variant : ClipVariant
  op : SkClipOp
  matrix : SkMatrix
deriving DecidableEq, Repr

/-- The argument of the recordClip template: one of the three overloaded
shape types (SkRect / SkRRect / SkPath). -/
inductive ClipArg
  | rect (r : SkRect)
  | rrect (rr : SkRRect)
  | path (p : SkPath)
deriving DecidableEq, Repr

/-- The three SkiaCanvas::Clip constructors (SkiaCanvas.cpp:218-223). -/
def Clip.make : ClipArg → SkClipOp → SkMatrix → Clip
  | ClipArg.rect r, op, m => ⟨ClipVariant.rect (SkRRect.MakeRect r), op, m⟩
  | ClipArg.rrect rr, op, m => ⟨ClipVariant.rrect rr, op, m⟩
  | ClipArg.path p, op, m => ⟨ClipVariant.path p, op, m⟩

/-- SkiaCanvas::Clip::apply (SkiaCanvas.cpp:225-238): install the frozen
transform, then issue the matching backend clip primitive. -/
def Clip.apply (c : Clip) (canvas : SkCanvasState) : SkCanvasState :=
  let canvas := canvas.setMatrix c.matrix
  match c.variant with
  | ClipVariant.rect rr => canvas.clipRect rr.rect c.op
  | ClipVariant.rrect rr => canvas.clipRRect rr c.op
  | ClipVariant.path p => canvas.clipPath p c.op

/-- The backend clip element a Clip entry produces when replayed: its shape
and operator under its frozen transform. -/
def Clip.deviceElem (c : Clip) : ClipElem :=
  match c.variant with
  | ClipVariant.rect rr => ⟨ClipShape.rect rr.rect, c.op, c.matrix⟩
  | ClipVariant.rrect rr => ⟨ClipShape.rrect rr, c.op, c.matrix⟩
  | ClipVariant.path p => ⟨ClipShape.path p, c.op, c.matrix⟩

/-- The SkiaCanvas engine state: the backend canvas, the save-record deque
(`none` models the null mSaveStack pointer; records in push order, the
current candidate at the back), and the clip operation log. -/
structure SkiaCanvas where
  mCanvas : SkCanvasState
  mSaveStack : Option (List SaveRec)
  mClipStack : List Clip
deriving DecidableEq, Repr

/-- SkiaCanvas::getSaveCount (SkiaCanvas.cpp:133-135). -/
def SkiaCanvas.getSaveCount (s : SkiaCanvas) : Int := s.mCanvas.getSaveCount

/-- SkiaCanvas::currentSaveRec (SkiaCanvas.cpp:256-264): the back of the save
deque, but only when its recorded save count equals the backend's live save
count (SkDeque::back on a null or empty deque yields nullptr). -/
def SkiaCanvas.currentSaveRec (s : SkiaCanvas) : Option SaveRec :=
  let rec? := match s.mSaveStack with
    | some l => l.getLast?
    | none => none
  match rec? with
  | some rec => if rec.saveCount = s.mCanvas.getSaveCount then some rec else none
  | none => none

/-- SkiaCanvas::recordPartialSave (SkiaCanvas.cpp:270-290): mask the flags to
the matrix/clip bits; a full save pushes no record, a partial one pushes the
backend's (post-save) count, the masked flags, and the clip-log length. -/
def SkiaCanvas.recordPartialSave (s : SkiaCanvas) (flags : Nat) : SkiaCanvas :=
  let flags := flags &&& SaveFlags.MatrixClip
  if flags = SaveFlags.MatrixClip then s
  else
    let stack := s.mSaveStack.getD []
    let rec1 : SaveRec := ⟨s.mCanvas.getSaveCount, flags, s.mClipStack.length⟩
    { s with mSaveStack := some (stack ++ [rec1]) }

/-- SkiaCanvas::save (SkiaCanvas.cpp:137-141): one backend save, then the
partial-save bookkeeping; returns the backend's reported count unchanged. -/
def SkiaCanvas.save (s : SkiaCanvas) (flags : Nat) : SkiaCanvas × Int :=
  let p := s.mCanvas.save
  (({ s with mCanvas := p.1 }).recordPartialSave flags, p.2)

/-- SkiaCanvas::recordClip (SkiaCanvas.cpp:292-300): log the shape, operator
and current total transform, but only inside a partial-save frame whose flags
do not restore the clip. -/
def SkiaCanvas.recordClip (s : SkiaCanvas) (arg : ClipArg) (op : SkClipOp) : SkiaCanvas :=
  match s.currentSaveRec with
  | some rec =>
    if rec.saveFlags &&& SaveFlags.Clip = 0 then
      { s with mClipStack := s.mClipStack ++ [Clip.make arg op s.mCanvas.getTotalMatrix] }
    else s
  | none => s

/-- SkiaCanvas::applyPersistentClips (SkiaCanvas.cpp:303-324): snapshot the
transform, replay every logged clip from the start index to the end of the
log, reinstall the snapshot, then erase the replayed range unless the
post-restore current record also persists clips. -/
def SkiaCanvas.applyPersistentClips (s : SkiaCanvas) (clipStartIndex : Nat) : SkiaCanvas :=
  let saveMatrix := s.mCanvas.getTotalMatrix
  let canvas := (s.mClipStack.drop clipStartIndex).foldl (fun cv k => k.apply cv) s.mCanvas
  let canvas := canvas.setMatrix saveMatrix
  let s1 : SkiaCanvas := { s with mCanvas := canvas }
  match s1.currentSaveRec with
  | none => { s1 with mClipStack := s1.mClipStack.take clipStartIndex }
  | some rec =>
    if rec.saveFlags &&& SaveFlags.Clip ≠ 0 then
      { s1 with mClipStack := s1.mClipStack.take clipStartIndex }
    else s1

/-- SkiaCanvas::restore (SkiaCanvas.cpp:147-175). The matrix snapshot is
taken unconditionally here (the C++ declares it and assigns only under
preserveMatrix; the read is pure and the value is used only in that case). -/
def SkiaCanvas.restore (s : SkiaCanvas) : SkiaCanvas :=
  match s.currentSaveRec with
  | none => { s with mCanvas := s.mCanvas.restore }
  | some rec =>
    let preserveMatrix : Bool := rec.saveFlags &&& SaveFlags.Matrix == 0
    let preserveClip : Bool := rec.saveFlags &&& SaveFlags.Clip == 0
    let savedMatrix := s.mCanvas.getTotalMatrix
    let clipIndex := rec.clipIndex
    let s1 : SkiaCanvas := { s with
        mCanvas := s.mCanvas.restore,
        mSaveStack := s.mSaveStack.map List.dropLast }
    let s2 := if preserveMatrix then { s1 with mCanvas := s1.mCanvas.setMatrix savedMatrix } else s1
    if preserveClip then s2.applyPersistentClips clipIndex else s2

/-- The body of the restoreToCount while-loop, with explicit fuel: the C++
loop `while (getSaveCount() > restoreCount) restore();` does not terminate
when restoreCount is below the backend's baseline depth (restore at depth 1
is a no-op), so the model unrolls it a bounded number of times. -/
def SkiaCanvas.restoreToCountLoop : Nat → SkiaCanvas → Int → SkiaCanvas
  | 0, s, _ => s
  | fuel + 1, s, restoreCount =>
    if restoreCount < s.mCanvas.getSaveCount then
      SkiaCanvas.restoreToCountLoop fuel s.restore restoreCount
    else s

/-- SkiaCanvas::restoreToCount (SkiaCanvas.cpp:177-181): the fuel
`stack length + 1` reaches the loop's fixpoint whenever the C++ loop
terminates (each effective iteration pops one backend frame). -/
def SkiaCanvas.restoreToCount (s : SkiaCanvas) (restoreCount : Int) : SkiaCanvas :=
  SkiaCanvas.restoreToCountLoop (s.mCanvas.stack.length + 1) s restoreCount

/-- The static layerFlags helper (SkiaCanvas.cpp:183-196). -/
def layerFlags (flags : Nat) : Nat :=
  if flags &&& SaveFlags.ClipToLayer = 0 then kDontClipToLayerFlag else 0

/-- SkiaCanvas::saveLayer (SkiaCanvas.cpp:198-204): always a non-partial
backend layer save; no SaveRec is created. -/
def SkiaCanvas.saveLayer (s : SkiaCanvas) (left top right bottom : Scalar)
    (paint : Option SkPaint) (flags : Nat) : SkiaCanvas × Int :=
  let bounds := SkRect.MakeLTRB left top right bottom
  let p := s.mCanvas.saveLayer ⟨bounds, paint, layerFlags flags⟩
  ({ s with mCanvas := p.1 }, p.2)

/-- SkiaCanvas::saveLayerAlpha (SkiaCanvas.cpp:206-214): the int alpha is
compared as a 32-bit unsigned (static_cast<unsigned>(alpha) < 0xFF); an
alpha-only paint is synthesized only when that holds. -/
def SkiaCanvas.saveLayerAlpha (s : SkiaCanvas) (left top right bottom : Scalar)
    (alpha : Int) (flags : Nat) : SkiaCanvas × Int :=
  if (alpha.emod (2 ^ 32)).toNat < 0xFF then
    let alphaPaint := SkPaint.mkDefault.setAlpha (alpha.emod (2 ^ 32)).toNat
    s.saveLayer left top right bottom (some alphaPaint) flags
  else
    s.saveLayer left top right bottom none flags

/-- SkiaCanvas::clipRect (SkiaCanvas.cpp:397-402). The C++ also returns
!mCanvas->isClipEmpty(), a geometric backend query outside the modelled
state; no claim mentions it. -/
def SkiaCanvas.clipRect (s : SkiaCanvas) (left top right bottom : Scalar)
    (op : SkClipOp) : SkiaCanvas :=
  let rect := SkRect.MakeLTRB left top right bottom
  let s := s.recordClip (ClipArg.rect rect) op
  { s with mCanvas := s.mCanvas.clipRect rect op }

/-- SkiaCanvas::clipPath (SkiaCanvas.cpp:404-414): a path that is exactly a
rounded rect is recorded and clipped as one. -/
def SkiaCanvas.clipPath (s : SkiaCanvas) (path : SkPath) (op : SkClipOp) : SkiaCanvas :=
  match path.isRRect with
  | some roundRect =>
    let s := s.recordClip (ClipArg.rrect roundRect) op
    { s with mCanvas := s.mCanvas.clipRRect roundRect op }
  | none =>
    let s := s.recordClip (ClipArg.path path) op
    { s with mCanvas := s.mCanvas.clipPath path op }

/-- SkiaCanvas::setMatrix (SkiaCanvas.cpp:334-336). -/
def SkiaCanvas.setMatrix (s : SkiaCanvas) (m : SkMatrix) : SkiaCanvas :=
  { s with mCanvas := s.mCanvas.setMatrix m }

/-- SkiaCanvas::setBitmap (SkiaCanvas.cpp:94-111): build a fresh backend
canvas; for a non-null bitmap copy the total matrix and replay the old clip
into it; install it and reset the save stack (mClipStack is not touched). -/
def SkiaCanvas.setBitmap (s : SkiaCanvas) (bitmap : SkBitmap) : SkiaCanvas :=
  let newCanvas := SkCanvasState.fresh
  let newCanvas :=
    if !bitmap.isNull then
      let newCanvas := newCanvas.setMatrix s.mCanvas.getTotalMatrix
      s.mCanvas.replayClipsInto newCanvas
    else newCanvas
  { mCanvas := newCanvas, mSaveStack := none, mClipStack := s.mClipStack }

/-- SkiaCanvas::reset (SkiaCanvas.cpp:63-70): swap in the given backend
canvas and drop the save stack (mClipStack is not touched). -/
def SkiaCanvas.resetCanvas (s : SkiaCanvas) (skiaCanvas : SkCanvasState) : SkiaCanvas :=
  { s with mCanvas := skiaCanvas, mSaveStack := none }

/-- The guard of recordClip, and equally of the erase decision at the end of
applyPersistentClips: a current save record exists and its flags do not
restore the clip (preserveClip, in the spec's vocabulary). -/
def SkiaCanvas.clipRecordingActive (s : SkiaCanvas) : Bool :=
  match s.currentSaveRec with
  | some rec => rec.saveFlags &&& SaveFlags.Clip == 0
  | none => false

/-- The save-record list as a plain list (empty for a null deque). -/
def SkiaCanvas.stackList (s : SkiaCanvas) : List SaveRec := s.mSaveStack.getD []

/-- The condition of the SkASSERT in currentSaveRec (SkiaCanvas.cpp:261): the
back record's stored save count never exceeds the backend's live count. -/
def SaveCountAssertOK (s : SkiaCanvas) : Prop :=
  ∀ rec, s.stackList.getLast? = some rec → rec.saveCount ≤ s.mCanvas.getSaveCount

/-- The condition of the SkASSERT in applyPersistentClips (SkiaCanvas.cpp:304)
for the start index restore passes: the current record's clip-log start index
never exceeds the log's length. -/
def ClipIndexAssertOK (s : SkiaCanvas) : Prop :=
  ∀ rec, s.currentSaveRec = some rec → rec.clipIndex ≤ s.mClipStack.length

/-- One client-visible engine operation, as a relation between states. -/
inductive Step : SkiaCanvas → SkiaCanvas → Prop
  | save (s : SkiaCanvas) (flags : Nat) : Step s (s.save flags).1
  | restore (s : SkiaCanvas) : Step s s.restore
  | restoreToCount (s : SkiaCanvas) (n : Int) : Step s (s.restoreToCount n)
  | clipRect (s : SkiaCanvas) (l t r b : Scalar) (op : SkClipOp) :
      Step s (s.clipRect l t r b op)
  | clipPath (s : SkiaCanvas) (p : SkPath) (op : SkClipOp) : Step s (s.clipPath p op)
  | saveLayer (s : SkiaCanvas) (l t r b : Scalar) (paint : Option SkPaint) (flags : Nat) :
      Step s (s.saveLayer l t r b paint flags).1
  | saveLayerAlpha (s : SkiaCanvas) (l t r b : Scalar) (alpha : Int) (flags : Nat) :
      Step s (s.saveLayerAlpha l t r b alpha flags).1
  | setMatrix (s : SkiaCanvas) (m : SkMatrix) : Step s (s.setMatrix m)
  | setBitmap (s : SkiaCanvas) (bm : SkBitmap) : Step s (s.setBitmap bm)
  | resetCanvas (s : SkiaCanvas) (c : SkCanvasState) : Step s (s.resetCanvas c)

/-- An engine state as freshly constructed (SkiaCanvas.cpp:51-59): the save
deque is null and the clip log empty; the wrapped backend canvas is
arbitrary (the SkCanvas* constructor accepts any existing canvas). -/
def Init (s : SkiaCanvas) : Prop := s.mSaveStack = none ∧ s.mClipStack = []

/-- States reachable from a freshly constructed engine through the engine's
operations. -/
inductive Reachable : SkiaCanvas → Prop
  | init (s : SkiaCanvas) : Init s → Reachable s
  | step (s t : SkiaCanvas) : Reachable s → Step s t → Reachable t

/-- Ordering of save records as they sit in the deque: later records belong
to deeper frames (strictly larger backend counts) and later log ranges. -/
def RecBelow (a b : SaveRec) : Prop :=
  a.saveCount < b.saveCount ∧ a.clipIndex ≤ b.clipIndex

/-- The engine's bookkeeping invariant: records are ordered, every record was
created after at least one save (count ≥ 2), no record's count exceeds the
live backend count, and every record's log start index is within the log. -/
def Inv (s : SkiaCanvas) : Prop :=
  s.stackList.Pairwise RecBelow ∧
  ∀ r ∈ s.stackList, 2 ≤ r.saveCount ∧ r.saveCount ≤ s.mCanvas.getSaveCount ∧
    r.clipIndex ≤ s.mClipStack.length

/-! Concrete sample data, used by the executable witnesses below. -/

/-- A sample pre-existing backend clip element. -/
def elem0 : ClipElem := ⟨ClipShape.rect (SkRect.MakeLTRB 1 1 5 5), SkClipOp.intersect, ⟨7⟩⟩

/-- A sample backend canvas holding a pre-save clip and a non-trivial
transform. -/
def canvas0 : SkCanvasState := { matrix := ⟨7⟩, clip := [elem0], stack := [], layers := [] }

/-- A freshly constructed engine wrapping canvas0. -/
def engine0 : SkiaCanvas := { mCanvas := canvas0, mSaveStack := none, mClipStack := [] }

/-- engine0 after a matrix-only partial save followed by a logged clip. -/
def engine1 : SkiaCanvas :=
  ((engine0.save SaveFlags.Matrix).1.clipRect 0 0 10 10 SkClipOp.intersect)

/-- A sample non-null bitmap. -/
def bitmap1 : SkBitmap := ⟨5, false⟩

/-- A sample path that is not a rounded rect. -/
def path0 : SkPath := ⟨3, none⟩

/-- engine0 after a clip-only partial save (matrix flag omitted, so the
record's flags preserve the matrix across restore). -/
def engine2 : SkiaCanvas := (engine0.save SaveFlags.Clip).1

/-- The spec §8 concrete scenario: save(flags), clipRect(A), clipRect(B,
intersect), restore(). -/
def clipScenario (s : SkiaCanvas) (flags : Nat) (a1 a2 a3 a4 b1 b2 b3 b4 : Scalar) : SkiaCanvas :=
  ((((s.save flags).1.clipRect a1 a2 a3 a4 SkClipOp.intersect).clipRect
      b1 b2 b3 b4 SkClipOp.intersect).restore)

example : engine1.mClipStack.length = 1 := by decide
example : engine1.currentSaveRec =
    some ⟨2, SaveFlags.Matrix, 0⟩ := by decide
example : (engine1.clipRect 2 2 8 8 SkClipOp.intersect).restore.mCanvas.clip =
    [elem0,
     ⟨ClipShape.rect (SkRect.MakeLTRB 0 0 10 10), SkClipOp.intersect, ⟨7⟩⟩,
     ⟨ClipShape.rect (SkRect.MakeLTRB 2 2 8 8), SkClipOp.intersect, ⟨7⟩⟩] := by decide

/-! Backend field lemmas. -/

theorem SkCanvasState.getSaveCount_pos (c : SkCanvasState) : 1 ≤ c.getSaveCount := by
  simp only [SkCanvasState.getSaveCount]
  omega

theorem SkCanvasState.save_fst_getSaveCount (c : SkCanvasState) :
    (c.save).1.getSaveCount = c.getSaveCount + 1 := by
  simp only [SkCanvasState.save, SkCanvasState.getSaveCount, List.length_cons]
  push_cast
  ring

theorem SkCanvasState.saveLayer_fst_getSaveCount (c : SkCanvasState) (rec : SaveLayerRec) :
    (c.saveLayer rec).1.getSaveCount = c.getSaveCount + 1 := by
  simp only [SkCanvasState.saveLayer, SkCanvasState.getSaveCount, List.length_cons]
  push_cast
  ring

theorem SkCanvasState.restore_getSaveCount_of_ne_nil (c : SkCanvasState) (h : c.stack ≠ []) :
    (c.restore).getSaveCount = c.getSaveCount - 1 := by
  rcases hs : c.stack with _ | ⟨⟨m, cl⟩, rest⟩
  · exact absurd hs h
  · simp [SkCanvasState.restore, SkCanvasState.getSaveCount, hs]

theorem SkCanvasState.restore_getSaveCount_ge (c : SkCanvasState) :
    c.getSaveCount - 1 ≤ (c.restore).getSaveCount := by
  rcases hs : c.stack with _ | ⟨⟨m, cl⟩, rest⟩
  · simp [SkCanvasState.restore, hs]
  · simp [SkCanvasState.restore, SkCanvasState.getSaveCount, hs]

/-! Field lemmas for Clip.apply and the replay fold. -/

theorem Clip.apply_clip (c : Clip) (cv : SkCanvasState) :
    (c.apply cv).clip = cv.clip ++ [c.deviceElem] := by
  rcases c with ⟨v, op, m⟩
  cases v <;>
    simp [Clip.apply, Clip.deviceElem, SkCanvasState.setMatrix, SkCanvasState.clipRect,
      SkCanvasState.clipRRect, SkCanvasState.clipPath]

theorem Clip.apply_stack (c : Clip) (cv : SkCanvasState) :
    (c.apply cv).stack = cv.stack := by
  rcases c with ⟨v, op, m⟩
  cases v <;>
    simp [Clip.apply, SkCanvasState.setMatrix, SkCanvasState.clipRect,
      SkCanvasState.clipRRect, SkCanvasState.clipPath]

theorem Clip.apply_layers (c : Clip) (cv : SkCanvasState) :
    (c.apply cv).layers = cv.layers := by
  rcases c with ⟨v, op, m⟩
  cases v <;>
    simp [Clip.apply, SkCanvasState.setMatrix, SkCanvasState.clipRect,
      SkCanvasState.clipRRect, SkCanvasState.clipPath]

theorem replayFold_clip (cs : List Clip) (cv : SkCanvasState) :
    (cs.foldl (fun cv k => k.apply cv) cv).clip = cv.clip ++ cs.map Clip.deviceElem := by
  induction cs generalizing cv with
  | nil => simp
  | cons k ks ih => simp [ih, Clip.apply_clip]

theorem replayFold_stack (cs : List Clip) (cv : SkCanvasState) :
    (cs.foldl (fun cv k => k.apply cv) cv).stack = cv.stack := by
  induction cs generalizing cv with
  | nil => rfl
  | cons k ks ih => rw [List.foldl_cons, ih, Clip.apply_stack]

theorem replayFold_layers (cs : List Clip) (cv : SkCanvasState) :
    (cs.foldl (fun cv k => k.apply cv) cv).layers = cv.layers := by
  induction cs generalizing cv with
  | nil => rfl
  | cons k ks ih => rw [List.foldl_cons, ih, Clip.apply_layers]

theorem replayFold_getSaveCount (cs : List Clip) (cv : SkCanvasState) :
    (cs.foldl (fun cv k => k.apply cv) cv).getSaveCount = cv.getSaveCount := by
  simp [SkCanvasState.getSaveCount, replayFold_stack]

/-! currentSaveRec lemmas. -/

theorem currentSaveRec_def (s : SkiaCanvas) :
    s.currentSaveRec =
      match s.stackList.getLast? with
      | some rec => if rec.saveCount = s.mCanvas.getSaveCount then some rec else none
      | none => none := by
  rcases s with ⟨cv, st, log⟩
  cases st <;> simp [SkiaCanvas.currentSaveRec, SkiaCanvas.stackList]

theorem currentSaveRec_getLast (s : SkiaCanvas) (rec : SaveRec)
    (h : s.currentSaveRec = some rec) :
    s.stackList.getLast? = some rec ∧ rec.saveCount = s.mCanvas.getSaveCount := by
  rw [currentSaveRec_def] at h
  cases hl : s.stackList.getLast? with
  | none => rw [hl] at h; exact absurd h (by simp)
  | some r =>
    rw [hl] at h
    by_cases hc : r.saveCount = s.mCanvas.getSaveCount
    · simp only [hc, if_true] at h
      obtain rfl : r = rec := by injection h
      exact ⟨rfl, hc⟩
    · simp [hc] at h

theorem currentSaveRec_canvas_congr (s : SkiaCanvas) (cv : SkCanvasState)
    (h : cv.getSaveCount = s.mCanvas.getSaveCount) :
    ({ s with mCanvas := cv } : SkiaCanvas).currentSaveRec = s.currentSaveRec := by
  rcases s with ⟨cv0, st, log⟩
  cases st <;> simp_all [SkiaCanvas.currentSaveRec]

/-! Characterization of applyPersistentClips. -/

theorem applyPersistentClips_eq (s : SkiaCanvas) (i : Nat) :
    s.applyPersistentClips i =
      { s with
        mCanvas := ((s.mClipStack.drop i).foldl (fun cv k => k.apply cv)
            s.mCanvas).setMatrix s.mCanvas.getTotalMatrix,
        mClipStack := if s.clipRecordingActive then s.mClipStack else s.mClipStack.take i } := by
  have hcount : (((s.mClipStack.drop i).foldl (fun cv k => k.apply cv)
      s.mCanvas).setMatrix s.mCanvas.getTotalMatrix).getSaveCount = s.mCanvas.getSaveCount := by
    simp [SkCanvasState.setMatrix, SkCanvasState.getSaveCount, replayFold_stack]
  unfold SkiaCanvas.applyPersistentClips
  dsimp only
  rw [currentSaveRec_canvas_congr s _ hcount]
  cases hcr : s.currentSaveRec with
  | none => simp [SkiaCanvas.clipRecordingActive, hcr]
  | some rec =>
    by_cases hfl : rec.saveFlags &&& SaveFlags.Clip = 0
    · simp [SkiaCanvas.clipRecordingActive, hcr, hfl]
    · simp [SkiaCanvas.clipRecordingActive, hcr, hfl]

/-- C4: after clip replay completes, the replayed range is erased from the
ClipOperationLog exactly when the new current SaveRecord (if any) does not
preserve clip; when the new current record also preserves clip
(clipRecordingActive), the log is left untouched. -/
theorem applyPersistentClips_erase_iff (s : SkiaCanvas) (i : Nat) :
    (s.applyPersistentClips i).mClipStack =
      if s.clipRecordingActive then s.mClipStack else s.mClipStack.take i := by
  rw [applyPersistentClips_eq]

/-- C6: clip replay applies every logged entry from the start index to the end
of the log as a backend clip element carrying that entry's frozen transform
(deviceElem records the setMatrix installed before the primitive), and after
the loop the backend's total transform equals the pre-replay snapshot,
however many entries were replayed. -/
theorem applyPersistentClips_frozen_transform (s : SkiaCanvas) (i : Nat) :
    (s.applyPersistentClips i).mCanvas.clip =
      s.mCanvas.clip ++ (s.mClipStack.drop i).map Clip.deviceElem ∧
    (s.applyPersistentClips i).mCanvas.matrix = s.mCanvas.matrix := by
  rw [applyPersistentClips_eq]
  constructor
  · simp [SkCanvasState.setMatrix, replayFold_clip]
  · simp [SkCanvasState.setMatrix, SkCanvasState.getTotalMatrix]

theorem recordPartialSave_eq (s : SkiaCanvas) (flags : Nat) :
    s.recordPartialSave flags =
      if flags &&& SaveFlags.MatrixClip = SaveFlags.MatrixClip then s
      else { s with mSaveStack := some (s.stackList ++
        [⟨s.mCanvas.getSaveCount, flags &&& SaveFlags.MatrixClip, s.mClipStack.length⟩]) } := by
  unfold SkiaCanvas.recordPartialSave
  dsimp only
  split
  · rfl
  · rfl

/-- C7: save issues exactly one backend save, returns the backend's reported
count unchanged, leaves the log alone, and pushes a SaveRecord — capturing
the backend's resulting (post-save) count, the masked flags and the current
log length — exactly when the masked flags are not the full matrix+clip set;
being a total function it never fails. -/
theorem save_spec (s : SkiaCanvas) (flags : Nat) :
    (s.save flags).1.mCanvas =
      { s.mCanvas with stack := (s.mCanvas.matrix, s.mCanvas.clip) :: s.mCanvas.stack } ∧
    (s.save flags).2 = (s.mCanvas.save).2 ∧
    (s.save flags).1.mClipStack = s.mClipStack ∧
    (s.save flags).1.mSaveStack =
      (if flags &&& SaveFlags.MatrixClip = SaveFlags.MatrixClip then s.mSaveStack
       else some (s.stackList ++
         [⟨s.mCanvas.getSaveCount + 1, flags &&& SaveFlags.MatrixClip, s.mClipStack.length⟩])) := by
  have hs : s.save flags =
      (({ s with mCanvas := (s.mCanvas.save).1 }).recordPartialSave flags,
       (s.mCanvas.save).2) := rfl
  rw [hs, recordPartialSave_eq]
  by_cases hf : flags &&& SaveFlags.MatrixClip = SaveFlags.MatrixClip
  · rw [if_pos hf, if_pos hf]
    exact ⟨rfl, rfl, rfl, rfl⟩
  · rw [if_neg hf, if_neg hf]
    refine ⟨rfl, rfl, rfl, ?_⟩
    simp [SkCanvasState.save_fst_getSaveCount, SkiaCanvas.stackList]

/-- C8: restoreToCount issues restores only while the backend's live save
count strictly exceeds the target; when the current depth is at most the
requested count the loop body never runs, so the state is unchanged and no
error is signalled. -/
theorem restoreToCount_noop (s : SkiaCanvas) (n : Int)
    (h : s.mCanvas.getSaveCount ≤ n) : s.restoreToCount n = s := by
  unfold SkiaCanvas.restoreToCount SkiaCanvas.restoreToCountLoop
  rw [if_neg (by omega)]

/-- Witness for restoreToCount_noop at depth 1 and target 1. -/
theorem restoreToCount_noop_witness :
    engine0.mCanvas.getSaveCount ≤ 1 ∧ engine0.restoreToCount 1 = engine0 :=
  ⟨by decide, restoreToCount_noop engine0 1 (by decide)⟩

/-- C10: saveLayerAlpha compares its int alpha after a 32-bit unsigned cast,
so for int-range alphas the alpha-only paint is synthesized exactly when
0 ≤ alpha < 255; every negative alpha (huge as unsigned) and every
alpha ≥ 255 delegates to saveLayer with a null paint. -/
theorem saveLayerAlpha_spec (s : SkiaCanvas) (l t r b : Scalar) (alpha : Int) (flags : Nat)
    (h1 : -(2 ^ 31) ≤ alpha) (h2 : alpha < 2 ^ 31) :
    s.saveLayerAlpha l t r b alpha flags =
      if 0 ≤ alpha ∧ alpha < 255 then
        s.saveLayer l t r b (some (SkPaint.mkDefault.setAlpha alpha.toNat)) flags
      else s.saveLayer l t r b none flags := by
  have h32 : ((2 : Int) ^ 32) = 4294967296 := by norm_num
  have h31 : ((2 : Int) ^ 31) = 2147483648 := by norm_num
  rw [h31] at h1 h2
  unfold SkiaCanvas.saveLayerAlpha
  rw [h32]
  have hme : Int.emod alpha 4294967296 = alpha % 4294967296 := rfl
  rw [hme]
  by_cases hc : 0 ≤ alpha ∧ alpha < 255
  · have hlt : (alpha % 4294967296).toNat < 0xFF := by omega
    have htn : (alpha % 4294967296).toNat = alpha.toNat := by omega
    rw [if_pos hlt, if_pos hc, htn]
  · have hlt : ¬(alpha % 4294967296).toNat < 0xFF := by omega
    rw [if_neg hlt, if_neg hc]

/-- Witness for saveLayerAlpha_spec at the negative alpha -5. -/
theorem saveLayerAlpha_spec_witness :
    (-(2 ^ 31) ≤ (-5 : Int) ∧ (-5 : Int) < 2 ^ 31) ∧
    engine0.saveLayerAlpha 0 0 4 4 (-5) 0 = engine0.saveLayer 0 0 4 4 none 0 := by
  refine ⟨⟨by norm_num, by norm_num⟩, ?_⟩
  have h := saveLayerAlpha_spec engine0 0 0 4 4 (-5) 0 (by norm_num) (by norm_num)
  rw [if_neg (by norm_num)] at h
  exact h

/-- C3 (amended): a clip-shape call (clipRect, or clipPath in both its
rounded-rect and general forms) appends the shape, the combine operator, and
the backend's current total transform to the log exactly when a current
SaveRecord exists whose preserveClip holds — its masked flags omit the clip
bit (clipRecordingActive), so the backend restore would discard the mutation
and it must be captured for replay; when no current record exists, or the
record's flags restore the clip natively, nothing is appended. (The claim as
frozen says the entry is logged when preserveClip is false; under the spec's
§3 inverted-flag definition of that field the code does the opposite.) -/
theorem clipShape_logs_iff (s : SkiaCanvas) (l t r b : Scalar) (p : SkPath) (op : SkClipOp) :
    ((s.clipRect l t r b op).mClipStack =
      if s.clipRecordingActive then
        s.mClipStack ++
          [Clip.make (ClipArg.rect (SkRect.MakeLTRB l t r b)) op s.mCanvas.getTotalMatrix]
      else s.mClipStack) ∧
    ((s.clipPath p op).mClipStack =
      if s.clipRecordingActive then
        s.mClipStack ++
          [Clip.make
            (match p.isRRect with
             | some rr => ClipArg.rrect rr
             | none => ClipArg.path p) op s.mCanvas.getTotalMatrix]
      else s.mClipStack) := by
  have hrec : ∀ arg : ClipArg, (s.recordClip arg op).mClipStack =
      if s.clipRecordingActive then
        s.mClipStack ++ [Clip.make arg op s.mCanvas.getTotalMatrix]
      else s.mClipStack := by
    intro arg
    unfold SkiaCanvas.recordClip SkiaCanvas.clipRecordingActive
    cases hcr : s.currentSaveRec with
    | none => simp
    | some rec =>
      by_cases hfl : rec.saveFlags &&& SaveFlags.Clip = 0
      · simp [hfl]
      · simp [hfl]
  constructor
  · rw [SkiaCanvas.clipRect]
    exact hrec _
  · rw [SkiaCanvas.clipPath]
    cases hp : p.isRRect with
    | some rr => exact hrec _
    | none => exact hrec _

/-- C3 counterexample: on a clip-only partial save frame the current
SaveRecord exists and its preserveClip (in the spec's §3 sense: the masked
flags omit the clip bit) is false — the clip bit is present — yet clipRect
appends nothing to the log, contradicting the claim that an entry is
appended exactly when preserveClip is false. -/
theorem recordClip_counterexample :
    engine2.currentSaveRec = some ⟨2, SaveFlags.Clip, 0⟩ ∧
    SaveFlags.Clip &&& SaveFlags.Clip ≠ 0 ∧
    (engine2.clipRect 0 0 10 10 SkClipOp.intersect).mClipStack = engine2.mClipStack := by
  refine ⟨by decide, by decide, by decide⟩

/-- C5: when the top SaveRecord is current and its flags preserve the matrix,
restore leaves the backend's total transform equal to the transform in effect
immediately before the call, and pops the record. -/
theorem restore_preserveMatrix (s : SkiaCanvas) (rec : SaveRec)
    (hcr : s.currentSaveRec = some rec)
    (hm : rec.saveFlags &&& SaveFlags.Matrix = 0) :
    s.restore.mCanvas.matrix = s.mCanvas.matrix ∧
    s.restore.mSaveStack = s.mSaveStack.map List.dropLast := by
  unfold SkiaCanvas.restore
  rw [hcr]
  dsimp only
  rw [hm]
  simp only [beq_self_eq_true, if_true]
  by_cases hcl : rec.saveFlags &&& SaveFlags.Clip = 0
  · rw [hcl]
    simp only [beq_self_eq_true, if_true]
    rw [applyPersistentClips_eq]
    simp [SkCanvasState.setMatrix, SkCanvasState.getTotalMatrix]
  · rw [if_neg (by simpa using hcl)]
    simp [SkCanvasState.setMatrix, SkCanvasState.getTotalMatrix]

/-- Witness for restore_preserveMatrix: a clip-only partial save frame. -/
theorem restore_preserveMatrix_witness :
    engine2.currentSaveRec = some ⟨2, SaveFlags.Clip, 0⟩ ∧
    (SaveFlags.Clip &&& SaveFlags.Matrix = 0) ∧
    engine2.restore.mCanvas.matrix = engine2.mCanvas.matrix ∧
    engine2.restore.mSaveStack = engine2.mSaveStack.map List.dropLast := by
  refine ⟨by decide, by decide, ?_⟩
  exact restore_preserveMatrix engine2 ⟨2, SaveFlags.Clip, 0⟩ (by decide) (by decide)

/-! setBitmap: C2. -/

/-- C2 (amended): for every engine state and non-null bitmap, setBitmap gives
the new backend surface the prior surface's total transform and clip region
and discards the SaveRecordStack entirely; the ClipOperationLog, however, is
left unchanged — not discarded. -/
theorem setBitmap_spec (s : SkiaCanvas) (bm : SkBitmap) (h : bm.isNull = false) :
    (s.setBitmap bm).mCanvas.matrix = s.mCanvas.matrix ∧
    (s.setBitmap bm).mCanvas.clip = s.mCanvas.clip ∧
    (s.setBitmap bm).mSaveStack = none ∧
    (s.setBitmap bm).mClipStack = s.mClipStack := by
  unfold SkiaCanvas.setBitmap
  rw [h]
  simp [SkCanvasState.replayClipsInto, SkCanvasState.setMatrix,
    SkCanvasState.getTotalMatrix, SkCanvasState.fresh]

/-- Witness for setBitmap_spec on a state with a non-empty clip log. -/
theorem setBitmap_spec_witness :
    bitmap1.isNull = false ∧
    ((engine1.setBitmap bitmap1).mCanvas.matrix = engine1.mCanvas.matrix ∧
     (engine1.setBitmap bitmap1).mCanvas.clip = engine1.mCanvas.clip ∧
     (engine1.setBitmap bitmap1).mSaveStack = none ∧
     (engine1.setBitmap bitmap1).mClipStack = engine1.mClipStack) :=
  ⟨rfl, setBitmap_spec engine1 bitmap1 rfl⟩

/-- C2 counterexample: setBitmap does not discard the ClipOperationLog — on a
reachable state with one logged clip entry and a non-null bitmap, the log is
still non-empty after the surface swap (the claim says it becomes empty). -/
theorem setBitmap_counterexample :
    (engine1.setBitmap bitmap1).mClipStack ≠ [] := by decide

/-! The §8 scenario: C1. -/

theorem currentSaveRec_congr (s t : SkiaCanvas)
    (hst : t.mSaveStack = s.mSaveStack)
    (hc : t.mCanvas.getSaveCount = s.mCanvas.getSaveCount) :
    t.currentSaveRec = s.currentSaveRec := by
  rcases s with ⟨cv, st, log⟩
  rcases t with ⟨cv2, st2, log2⟩
  dsimp at hst hc
  subst hst
  cases st2 <;> simp_all [SkiaCanvas.currentSaveRec]

theorem currentSaveRec_some_of_pushed (s : SkiaCanvas) (l : List SaveRec) (r : SaveRec)
    (hst : s.mSaveStack = some (l ++ [r])) (hc : r.saveCount = s.mCanvas.getSaveCount) :
    s.currentSaveRec = some r := by
  rw [currentSaveRec_def, SkiaCanvas.stackList, hst]
  simp [List.getLast?_concat, hc]

theorem save_eq_partial (s : SkiaCanvas) (flags : Nat)
    (hf : flags &&& SaveFlags.MatrixClip ≠ SaveFlags.MatrixClip) :
    (s.save flags).1 = { s with
      mCanvas := (s.mCanvas.save).1,
      mSaveStack := some (s.stackList ++
        [⟨s.mCanvas.getSaveCount + 1, flags &&& SaveFlags.MatrixClip, s.mClipStack.length⟩]) } := by
  have hs : (s.save flags).1 =
      ({ s with mCanvas := (s.mCanvas.save).1 }).recordPartialSave flags := rfl
  rw [hs, recordPartialSave_eq, if_neg hf]
  simp [SkCanvasState.save_fst_getSaveCount, SkiaCanvas.stackList]

theorem clipRect_eq_of_active (s : SkiaCanvas) (rec : SaveRec) (l t r b : Scalar)
    (op : SkClipOp) (hcr : s.currentSaveRec = some rec)
    (hfl : rec.saveFlags &&& SaveFlags.Clip = 0) :
    s.clipRect l t r b op = { s with
      mCanvas := s.mCanvas.clipRect (SkRect.MakeLTRB l t r b) op,
      mClipStack := s.mClipStack ++
        [Clip.make (ClipArg.rect (SkRect.MakeLTRB l t r b)) op s.mCanvas.getTotalMatrix] } := by
  unfold SkiaCanvas.clipRect SkiaCanvas.recordClip
  rw [hcr]
  dsimp only
  rw [if_pos hfl]

/-- C1 (amended): in the §8 scenario — save with a flag set that omits the
clip flag, clipRect(A), clipRect(B, intersect), restore() — the omitted clip
flag means the in-frame clip mutations are preserved across the restore: the
backend restore discards A and B structurally and the replay reinstalls them
under their frozen transforms, so the final backend clip equals the pre-save
clip extended by A and B (not the pre-save clip alone), while the transform
and the backend save stack return to their pre-save values. -/
theorem clipScenario_spec (s : SkiaCanvas) (flags : Nat)
    (a1 a2 a3 a4 b1 b2 b3 b4 : Scalar) (hf : flags &&& SaveFlags.Clip = 0) :
    (clipScenario s flags a1 a2 a3 a4 b1 b2 b3 b4).mCanvas.clip =
      s.mCanvas.clip ++
        [⟨ClipShape.rect (SkRect.MakeLTRB a1 a2 a3 a4), SkClipOp.intersect, s.mCanvas.matrix⟩,
         ⟨ClipShape.rect (SkRect.MakeLTRB b1 b2 b3 b4), SkClipOp.intersect, s.mCanvas.matrix⟩] ∧
    (clipScenario s flags a1 a2 a3 a4 b1 b2 b3 b4).mCanvas.matrix = s.mCanvas.matrix ∧
    (clipScenario s flags a1 a2 a3 a4 b1 b2 b3 b4).mCanvas.stack = s.mCanvas.stack := by
  have h32 : SaveFlags.MatrixClip &&& SaveFlags.Clip = SaveFlags.Clip := by decide
  have hm2 : (flags &&& SaveFlags.MatrixClip) &&& SaveFlags.Clip = 0 := by
    rw [Nat.land_assoc, h32]
    exact hf
  have hf3 : flags &&& SaveFlags.MatrixClip ≠ SaveFlags.MatrixClip := by
    intro h
    rw [h] at hm2
    exact absurd hm2 (by decide)
  have hs1 := save_eq_partial s flags hf3
  have hcr1 : ((s.save flags).1).currentSaveRec =
      some ⟨s.mCanvas.getSaveCount + 1, flags &&& SaveFlags.MatrixClip, s.mClipStack.length⟩ := by
    rw [hs1]
    refine currentSaveRec_some_of_pushed _ s.stackList _ rfl ?_
    exact (SkCanvasState.save_fst_getSaveCount s.mCanvas).symm
  have hs2 := clipRect_eq_of_active _ _ a1 a2 a3 a4 SkClipOp.intersect hcr1 hm2
  have hcr2 : ((s.save flags).1.clipRect a1 a2 a3 a4 SkClipOp.intersect).currentSaveRec =
      some ⟨s.mCanvas.getSaveCount + 1, flags &&& SaveFlags.MatrixClip, s.mClipStack.length⟩ := by
    rw [hs2]
    exact (currentSaveRec_congr _ _ rfl rfl).trans hcr1
  have hs3 := clipRect_eq_of_active _ _ b1 b2 b3 b4 SkClipOp.intersect hcr2 hm2
  have hcr3 : (((s.save flags).1.clipRect a1 a2 a3 a4 SkClipOp.intersect).clipRect
      b1 b2 b3 b4 SkClipOp.intersect).currentSaveRec =
      some ⟨s.mCanvas.getSaveCount + 1, flags &&& SaveFlags.MatrixClip, s.mClipStack.length⟩ := by
    rw [hs3]
    exact (currentSaveRec_congr _ _ rfl rfl).trans hcr2
  unfold clipScenario SkiaCanvas.restore
  rw [hcr3]
  dsimp only
  rw [show ((flags &&& SaveFlags.MatrixClip) &&& SaveFlags.Clip == 0) = true by
    simp [hm2]]
  rw [if_pos rfl]
  by_cases hpm : (flags &&& SaveFlags.MatrixClip) &&& SaveFlags.Matrix = 0
  · rw [show ((flags &&& SaveFlags.MatrixClip) &&& SaveFlags.Matrix == 0) = true by
      simp [hpm]]
    rw [if_pos rfl, applyPersistentClips_eq]
    rw [hs3, hs2, hs1]
    refine ⟨?_, ?_, ?_⟩ <;>
      simp [SkCanvasState.setMatrix, SkCanvasState.getTotalMatrix, SkCanvasState.clipRect,
        SkCanvasState.restore, replayFold_clip, replayFold_stack, List.drop_left,
        Clip.make, Clip.deviceElem, SkRRect.MakeRect, Clip.apply_clip, Clip.apply_stack,
        SkCanvasState.save]
  · rw [show ((flags &&& SaveFlags.MatrixClip) &&& SaveFlags.Matrix == 0) = false by
      simp [hpm]]
    rw [if_neg (by simp)]
    rw [applyPersistentClips_eq]
    rw [hs3, hs2, hs1]
    refine ⟨?_, ?_, ?_⟩ <;>
      simp [SkCanvasState.setMatrix, SkCanvasState.getTotalMatrix, SkCanvasState.clipRect,
        SkCanvasState.restore, replayFold_clip, replayFold_stack, List.drop_left,
        Clip.make, Clip.deviceElem, SkRRect.MakeRect, Clip.apply_clip, Clip.apply_stack,
        SkCanvasState.save]

/-- Witness for clipScenario_spec at the concrete scenario inputs. -/
theorem clipScenario_spec_witness :
    (SaveFlags.Matrix &&& SaveFlags.Clip = 0) ∧
    (clipScenario engine0 SaveFlags.Matrix 0 0 10 10 2 2 8 8).mCanvas.clip =
      engine0.mCanvas.clip ++
        [⟨ClipShape.rect (SkRect.MakeLTRB 0 0 10 10), SkClipOp.intersect, engine0.mCanvas.matrix⟩,
         ⟨ClipShape.rect (SkRect.MakeLTRB 2 2 8 8), SkClipOp.intersect, engine0.mCanvas.matrix⟩] :=
  ⟨by decide, (clipScenario_spec engine0 SaveFlags.Matrix 0 0 10 10 2 2 8 8 (by decide)).1⟩

/-- C1 counterexample: in the §8 scenario on a state with a pre-save clip the
backend's clip after the restore is not equal to the pre-save clip (A and B
remain in effect), contradicting the claim as stated. -/
theorem clipScenario_counterexample :
    (clipScenario engine0 SaveFlags.Matrix 0 0 10 10 2 2 8 8).mCanvas.clip ≠
      engine0.mCanvas.clip := by decide

/-! The reachability invariant: C9. -/

theorem eq_nil_or_snoc {α : Type} (l : List α) : l = [] ∨ ∃ l2 a, l = l2 ++ [a] := by
  rcases List.eq_nil_or_concat l with h | ⟨l2, a, h⟩
  · exact Or.inl h
  · exact Or.inr ⟨l2, a, by rw [h, List.concat_eq_append]⟩

theorem getLast_mem_of_eq {α : Type} (l : List α) (a : α) (h : l.getLast? = some a) :
    a ∈ l := by
  rcases eq_nil_or_snoc l with rfl | ⟨l2, b, rfl⟩
  · simp at h
  · rw [List.getLast?_concat] at h
    injection h with h
    subst h
    exact List.mem_append_right _ (List.mem_singleton_self _)

theorem inv_of_none (s : SkiaCanvas) (h : s.mSaveStack = none) : Inv s := by
  constructor <;> simp [SkiaCanvas.stackList, h]

theorem inv_mono (s : SkiaCanvas) (cv : SkCanvasState) (log : List Clip) (h : Inv s)
    (hc : s.mCanvas.getSaveCount ≤ cv.getSaveCount)
    (hl : s.mClipStack.length ≤ log.length) :
    Inv { s with mCanvas := cv, mClipStack := log } := by
  obtain ⟨hp, hr⟩ := h
  refine ⟨hp, fun r hrm => ?_⟩
  obtain ⟨h1, h2, h3⟩ := hr r hrm
  exact ⟨h1, le_trans h2 hc, le_trans h3 hl⟩

theorem inv_push (s : SkiaCanvas) (rec1 : SaveRec) (cv : SkCanvasState) (h : Inv s)
    (hcv : cv.getSaveCount = s.mCanvas.getSaveCount + 1)
    (hsc : rec1.saveCount = cv.getSaveCount)
    (h2 : 2 ≤ rec1.saveCount)
    (hci : rec1.clipIndex = s.mClipStack.length) :
    Inv { s with mCanvas := cv, mSaveStack := some (s.stackList ++ [rec1]) } := by
  obtain ⟨hp, hr⟩ := h
  constructor
  · show (s.stackList ++ [rec1]).Pairwise RecBelow
    rw [List.pairwise_append]
    refine ⟨hp, by simp [List.pairwise_singleton], ?_⟩
    intro a ha b hb
    rw [List.mem_singleton] at hb
    subst hb
    obtain ⟨g1, g2, g3⟩ := hr a ha
    exact ⟨by omega, by omega⟩
  · intro r hrm
    have hrm2 : r ∈ s.stackList ++ [rec1] := hrm
    show 2 ≤ r.saveCount ∧ r.saveCount ≤ cv.getSaveCount ∧ r.clipIndex ≤ s.mClipStack.length
    rcases List.mem_append.mp hrm2 with hmem | hmem
    · obtain ⟨g1, g2, g3⟩ := hr r hmem
      exact ⟨g1, by omega, g3⟩
    · rw [List.mem_singleton] at hmem
      subst hmem
      exact ⟨h2, by omega, by omega⟩

theorem inv_save (s : SkiaCanvas) (flags : Nat) (h : Inv s) : Inv (s.save flags).1 := by
  have hs : (s.save flags).1 =
      ({ s with mCanvas := (s.mCanvas.save).1 }).recordPartialSave flags := rfl
  have hc1 := SkCanvasState.save_fst_getSaveCount s.mCanvas
  have hpos := SkCanvasState.getSaveCount_pos s.mCanvas
  rw [hs, recordPartialSave_eq]
  split
  · exact inv_mono s _ _ h (by omega) le_rfl
  · exact inv_push s
      ⟨(s.mCanvas.save).1.getSaveCount, flags &&& SaveFlags.MatrixClip, s.mClipStack.length⟩
      (s.mCanvas.save).1 h hc1 rfl (by dsimp only; omega) rfl

theorem inv_applyPersistentClips (s : SkiaCanvas) (i : Nat) (h : Inv s)
    (hi : ∀ r ∈ s.stackList, r.clipIndex ≤ i) :
    Inv (s.applyPersistentClips i) := by
  rw [applyPersistentClips_eq]
  obtain ⟨hp, hr⟩ := h
  refine ⟨hp, fun r hrm => ?_⟩
  have hrm2 : r ∈ s.stackList := hrm
  obtain ⟨g1, g2, g3⟩ := hr r hrm2
  have hc : (((s.mClipStack.drop i).foldl (fun cv k => k.apply cv) s.mCanvas).setMatrix
      s.mCanvas.getTotalMatrix).getSaveCount = s.mCanvas.getSaveCount := by
    simp [SkCanvasState.setMatrix, SkCanvasState.getSaveCount, replayFold_stack]
  refine ⟨g1, ?_, ?_⟩
  · show r.saveCount ≤ (((s.mClipStack.drop i).foldl (fun cv k => k.apply cv)
        s.mCanvas).setMatrix s.mCanvas.getTotalMatrix).getSaveCount
    omega
  · show r.clipIndex ≤
      (if s.clipRecordingActive then s.mClipStack else s.mClipStack.take i).length
    by_cases hact : s.clipRecordingActive
    · rw [if_pos hact]
      exact g3
    · rw [if_neg hact, List.length_take]
      exact le_min (hi r hrm2) g3

theorem inv_restore (s : SkiaCanvas) (h : Inv s) : Inv s.restore := by
  unfold SkiaCanvas.restore
  cases hcr : s.currentSaveRec with
  | none =>
    dsimp only
    refine ⟨h.1, fun r hrm => ?_⟩
    have hrm2 : r ∈ s.stackList := hrm
    obtain ⟨g1, g2, g3⟩ := h.2 r hrm2
    refine ⟨g1, ?_, g3⟩
    show r.saveCount ≤ (s.mCanvas.restore).getSaveCount
    rcases eq_nil_or_snoc s.stackList with hnil | ⟨l2, last, hco⟩
    · rw [hnil] at hrm2
      exact absurd hrm2 (List.not_mem_nil r)
    · have hlast : s.stackList.getLast? = some last := by
        rw [hco]
        exact List.getLast?_concat _
      have hne : last.saveCount ≠ s.mCanvas.getSaveCount := by
        intro he
        rw [currentSaveRec_def, hlast] at hcr
        dsimp only at hcr
        rw [if_pos he] at hcr
        exact absurd hcr (by simp)
      have hlastle := (h.2 last (by
        rw [hco]
        exact List.mem_append_right _ (List.mem_singleton_self _))).2.1
      have hrle : r.saveCount ≤ last.saveCount := by
        rw [hco] at hrm2
        rcases List.mem_append.mp hrm2 with hm | hm
        · have hpb := (List.pairwise_append.mp (hco ▸ h.1)).2.2 r hm last
            (List.mem_singleton_self _)
          exact le_of_lt hpb.1
        · rw [List.mem_singleton] at hm
          subst hm
          exact le_rfl
      have hresge := SkCanvasState.restore_getSaveCount_ge s.mCanvas
      omega
  | some rec =>
    dsimp only
    have hgl := currentSaveRec_getLast s rec hcr
    rcases eq_nil_or_snoc s.stackList with hnil | ⟨l2, last, hco⟩
    · rw [hnil] at hgl
      exact absurd hgl.1 (by simp)
    have hlast : last = rec := by
      have hx := hgl.1
      rw [hco, List.getLast?_concat] at hx
      injection hx
    subst hlast
    have hmemlast : last ∈ s.stackList := by
      rw [hco]
      exact List.mem_append_right _ (List.mem_singleton_self _)
    have h2c : 2 ≤ s.mCanvas.getSaveCount := by
      have hg1 := (h.2 last hmemlast).1
      have hg2 := hgl.2
      omega
    have hsep : s.mCanvas.stack ≠ [] := by
      intro hnil2
      have hone : s.mCanvas.getSaveCount = 1 := by
        simp [SkCanvasState.getSaveCount, hnil2]
      omega
    have hres : (s.mCanvas.restore).getSaveCount = s.mCanvas.getSaveCount - 1 :=
      SkCanvasState.restore_getSaveCount_of_ne_nil _ hsep
    have hdl : s.mSaveStack.map List.dropLast = some l2 := by
      cases hms : s.mSaveStack with
      | none =>
        rw [SkiaCanvas.stackList, hms] at hco
        simp at hco
      | some l =>
        have hll : l = l2 ++ [last] := by
          have hsl : s.stackList = l := by
            rw [SkiaCanvas.stackList, hms]
            rfl
          rw [← hsl, hco]
        rw [Option.map_some', hll, List.dropLast_concat]
    have hpw := List.pairwise_append.mp (hco ▸ h.1)
    have hrl2 : ∀ r ∈ l2, RecBelow r last := fun r hm =>
      hpw.2.2 r hm last (List.mem_singleton_self _)
    have hbase : ∀ cv : SkCanvasState,
        cv.getSaveCount = (s.mCanvas.restore).getSaveCount →
        Inv (SkiaCanvas.mk cv (s.mSaveStack.map List.dropLast) s.mClipStack) := by
      intro cv hcv
      constructor
      · show ((s.mSaveStack.map List.dropLast).getD []).Pairwise RecBelow
        rw [hdl]
        exact hpw.1
      · intro r hrm
        have hrm2 : r ∈ l2 := by
          have hx : r ∈ (s.mSaveStack.map List.dropLast).getD [] := hrm
          rw [hdl] at hx
          exact hx
        obtain ⟨g1, g2, g3⟩ := h.2 r (by
          rw [hco]
          exact List.mem_append_left _ hrm2)
        have hb := (hrl2 r hrm2).1
        have hlc := hgl.2
        refine ⟨g1, ?_, g3⟩
        show r.saveCount ≤ cv.getSaveCount
        omega
    have hibase : ∀ (cv : SkCanvasState) (r : SaveRec),
        r ∈ (SkiaCanvas.mk cv (s.mSaveStack.map List.dropLast) s.mClipStack).stackList →
        r.clipIndex ≤ last.clipIndex := by
      intro cv r hrm
      have hrm2 : r ∈ l2 := by
        have hx : r ∈ (s.mSaveStack.map List.dropLast).getD [] := hrm
        rw [hdl] at hx
        exact hx
      exact (hrl2 r hrm2).2
    by_cases hpc : last.saveFlags &&& SaveFlags.Clip = 0
    · by_cases hpm : last.saveFlags &&& SaveFlags.Matrix = 0
      · rw [hpm, hpc]
        simp only [beq_self_eq_true, if_true]
        exact inv_applyPersistentClips _ last.clipIndex (hbase _ rfl) (hibase _)
      · rw [hpc]
        simp only [beq_self_eq_true, if_true]
        rw [if_neg (by simpa using hpm)]
        exact inv_applyPersistentClips _ last.clipIndex (hbase _ rfl) (hibase _)
    · by_cases hpm : last.saveFlags &&& SaveFlags.Matrix = 0
      · rw [hpm]
        simp only [beq_self_eq_true, if_true]
        rw [if_neg (by simpa using hpc)]
        exact hbase _ rfl
      · rw [if_neg (by simpa using hpc), if_neg (by simpa using hpm)]
        exact hbase _ rfl

theorem inv_restoreToCountLoop (fuel : Nat) (s : SkiaCanvas) (n : Int) (h : Inv s) :
    Inv (SkiaCanvas.restoreToCountLoop fuel s n) := by
  induction fuel generalizing s with
  | zero => exact h
  | succ fuel ih =>
    unfold SkiaCanvas.restoreToCountLoop
    split
    · exact ih _ (inv_restore _ h)
    · exact h

theorem inv_restoreToCount (s : SkiaCanvas) (n : Int) (h : Inv s) :
    Inv (s.restoreToCount n) :=
  inv_restoreToCountLoop _ s n h

theorem inv_recordClip (s : SkiaCanvas) (arg : ClipArg) (op : SkClipOp) (h : Inv s) :
    Inv (s.recordClip arg op) := by
  unfold SkiaCanvas.recordClip
  cases hcr : s.currentSaveRec with
  | none => exact h
  | some rec =>
    dsimp only
    split
    · exact inv_mono s s.mCanvas _ h le_rfl (by simp)
    · exact h

theorem inv_clipRect (s : SkiaCanvas) (l t r b : Scalar) (op : SkClipOp) (h : Inv s) :
    Inv (s.clipRect l t r b op) := by
  unfold SkiaCanvas.clipRect
  dsimp only
  exact inv_mono _ _ _ (inv_recordClip s _ op h) le_rfl le_rfl

theorem inv_clipPath (s : SkiaCanvas) (p : SkPath) (op : SkClipOp) (h : Inv s) :
    Inv (s.clipPath p op) := by
  unfold SkiaCanvas.clipPath
  cases hp : p.isRRect with
  | some rr =>
    dsimp only
    exact inv_mono _ _ _ (inv_recordClip s _ op h) le_rfl le_rfl
  | none =>
    dsimp only
    exact inv_mono _ _ _ (inv_recordClip s _ op h) le_rfl le_rfl

theorem inv_saveLayer (s : SkiaCanvas) (l t r b : Scalar) (paint : Option SkPaint)
    (flags : Nat) (h : Inv s) : Inv (s.saveLayer l t r b paint flags).1 := by
  unfold SkiaCanvas.saveLayer
  dsimp only
  refine inv_mono s _ _ h ?_ le_rfl
  rw [SkCanvasState.saveLayer_fst_getSaveCount]
  omega

theorem inv_saveLayerAlpha (s : SkiaCanvas) (l t r b : Scalar) (alpha : Int)
    (flags : Nat) (h : Inv s) : Inv (s.saveLayerAlpha l t r b alpha flags).1 := by
  unfold SkiaCanvas.saveLayerAlpha
  split
  · exact inv_saveLayer s l t r b _ flags h
  · exact inv_saveLayer s l t r b none flags h

theorem inv_setMatrix (s : SkiaCanvas) (m : SkMatrix) (h : Inv s) :
    Inv (s.setMatrix m) :=
  inv_mono s _ _ h le_rfl le_rfl

theorem inv_setBitmap (s : SkiaCanvas) (bm : SkBitmap) : Inv (s.setBitmap bm) :=
  inv_of_none _ rfl

theorem inv_resetCanvas (s : SkiaCanvas) (c : SkCanvasState) : Inv (s.resetCanvas c) :=
  inv_of_none _ rfl

theorem inv_step (s t : SkiaCanvas) (h : Inv s) (hst : Step s t) : Inv t := by
  cases hst with
  | save flags => exact inv_save s flags h
  | restore => exact inv_restore s h
  | restoreToCount n => exact inv_restoreToCount s n h
  | clipRect l t r b op => exact inv_clipRect s l t r b op h
  | clipPath p op => exact inv_clipPath s p op h
  | saveLayer l t r b paint flags => exact inv_saveLayer s l t r b paint flags h
  | saveLayerAlpha l t r b alpha flags => exact inv_saveLayerAlpha s l t r b alpha flags h
  | setMatrix m => exact inv_setMatrix s m h
  | setBitmap bm => exact inv_setBitmap s bm
  | resetCanvas c => exact inv_resetCanvas s c

theorem inv_reachable (s : SkiaCanvas) (h : Reachable s) : Inv s := by
  induction h with
  | init s hs => exact inv_of_none s hs.1
  | step s t hr hst ih => exact inv_step s t ih hst

/-- C9: in every state reachable through the engine's operations, both fatal
assertion conditions hold — the top SaveRecord's stored backend save count
never exceeds the backend's live save count (the SkASSERT in currentSaveRec),
and the clip-replay start index restore passes (the current record's
clipIndex, the value checked by the SkASSERT in applyPersistentClips) never
exceeds the ClipOperationLog's length — so the assertions are unreachable. -/
theorem reachable_asserts (s : SkiaCanvas) (h : Reachable s) :
    SaveCountAssertOK s ∧ ClipIndexAssertOK s := by
  have hInv := inv_reachable s h
  constructor
  · intro rec hlast
    exact (hInv.2 rec (getLast_mem_of_eq _ rec hlast)).2.1
  · intro rec hcur
    have hgl := currentSaveRec_getLast s rec hcur
    exact (hInv.2 rec (getLast_mem_of_eq _ rec hgl.1)).2.2

/-- Witness for reachable_asserts at a concrete reachable state (fresh engine,
partial save, one recorded clip). -/
theorem reachable_asserts_witness :
    SaveCountAssertOK engine1 ∧ ClipIndexAssertOK engine1 :=
  reachable_asserts engine1
    (Reachable.step _ _
      (Reachable.step _ _ (Reachable.init engine0 ⟨rfl, rfl⟩)
        (Step.save engine0 SaveFlags.Matrix))
      (Step.clipRect _ 0 0 10 10 SkClipOp.intersect))

end SkiaModel
